import Mathlib

/-!
Verification of the travel-planner weather API core against its
natural-language specification.

The development shallowly embeds the two algorithmic components of the
repository:

* the rich city-identifier codec and the geocoding adapter
  (source: `OpenMeteoAPI.searchCities`, `OpenMeteoAPI.parseCityId`,
  `OpenMeteoAPI.isValidCoordinate`), and
* the activity-suitability scoring engine
  (source: `ActivityRankingService.rankActivitiesForDay`,
  `ActivityRankingService.scoreActivity`, together with the
  `ACTIVITY_CONFIGS` profile table from `src/utils/constants.ts`).

Modelling conventions:

* JavaScript strings are `List Char` (named `JStr`), so that the
  behaviour of `String.prototype.split`, `trim` and template-literal
  concatenation can be modelled and reasoned about structurally.
* JavaScript numbers are `ℚ`.  All arithmetic performed by the program
  (averaging, the fixed score bonuses and penalties, `parseFloat` of a
  decimal literal) is exact on the decimal values the program handles,
  so no floating-point rounding is modelled.  `NaN` (the result of
  `parseFloat` on a non-numeric string) is modelled by `Option`:
  `parseFloat` returns `none` where the JavaScript function returns
  `NaN`.  The `isNaN` guards of `isValidCoordinate` are therefore
  represented by the `none` branches at its call sites.
* Thrown `OpenMeteoAPIError`s are modelled with `Except`.
* The outbound HTTP call of `searchCities` is modelled by passing the
  collaborator's decoded response as an explicit argument; the
  validation the source performs before that call becomes a guard that
  is independent of the passed response.
-/

/-- JavaScript strings, modelled as their character lists. -/
abbrev JStr := List Char

/-- Characters treated as whitespace by `String.prototype.trim` (ASCII
subset; the repository only ever trims user queries). -/
def isWhitespaceChar (c : Char) : Bool :=
  c = ' ' ∨ c = '\t' ∨ c = '\n' ∨ c = '\r' ∨ c = '\x0b' ∨ c = '\x0c'

/-- Model of `String.prototype.trim`: drop whitespace from both ends. -/
def jsTrim (s : JStr) : JStr :=
  ((s.dropWhile isWhitespaceChar).reverse.dropWhile isWhitespaceChar).reverse

/-- Model of `String.prototype.split` with a single-character separator:
`"a:b".split(":") = ["a","b"]`, `"".split(":") = [""]`; the result is
never empty. -/
def splitChar (sep : Char) : JStr → List JStr
  | [] => [[]]
  | c :: r =>
    if c = sep then [] :: splitChar sep r
    else
      match splitChar sep r with
      | [] => [[c]]
      | p :: ps => (c :: p) :: ps

/-- Model of `Array.prototype.join(sep)`. -/
def joinSep (sep : JStr) : List JStr → JStr
  | [] => []
  | [x] => x
  | x :: xs => x ++ sep ++ joinSep sep xs

/-- Whether `c` is a decimal digit (used by the `parseFloat` model). -/
def isDigitChar (c : Char) : Bool := '0' ≤ c && c ≤ '9'

/-- Numeric value of a digit character. -/
def digitVal (c : Char) : ℕ := c.toNat - '0'.toNat

/-- The character printed for the decimal digit `d` (digits `≥ 10` never
arise; they default to `'0'`). -/
def digitChar (d : ℕ) : Char :=
  match d with
  | 0 => '0' | 1 => '1' | 2 => '2' | 3 => '3' | 4 => '4'
  | 5 => '5' | 6 => '6' | 7 => '7' | 8 => '8' | 9 => '9'
  | _ => '0'

/-- Split a leading run of digit characters off a string, returning their
values and the remainder. -/
def takeDigits : JStr → List ℕ × JStr
  | [] => ([], [])
  | c :: r =>
    if isDigitChar c then
      let t := takeDigits r
      (digitVal c :: t.1, t.2)
    else ([], c :: r)

/-- The number denoted by a most-significant-first digit list. -/
def natFromDigits (ds : List ℕ) : ℕ :=
  ds.foldl (fun acc d => acc * 10 + d) 0

/-- Parse an optional leading sign; returns whether the sign was `'-'`
and the remainder. -/
def parseSign : JStr → Bool × JStr
  | '-' :: r => (true, r)
  | '+' :: r => (false, r)
  | s => (false, s)

/-- Parse the optional exponent suffix accepted by `parseFloat`
(`e`/`E`, optional sign, digits); a malformed exponent is ignored, as in
JavaScript (`parseFloat("1e") = 1`). -/
def parseExp (s : JStr) : ℤ :=
  match s with
  | c :: r =>
    if c = 'e' ∨ c = 'E' then
      let sg := parseSign r
      let ds := takeDigits sg.2
      if ds.1 = [] then 0
      else if sg.1 then -(natFromDigits ds.1 : ℤ) else (natFromDigits ds.1 : ℤ)
    else 0
  | [] => 0

/-- Model of JavaScript `parseFloat`: skip leading whitespace, parse an
optional sign, a digit run, an optional fraction and an optional
exponent, and ignore any trailing garbage.  Returns `none` (JavaScript
`NaN`) when no mantissa digit is present.  (The JavaScript function also
accepts the literal `"Infinity"`; an infinite coordinate is rejected by
`isValidCoordinate` exactly as an unparseable one is, so the model folds
that case into `none`.) -/
def parseFloat (s : JStr) : Option ℚ :=
  let s1 := s.dropWhile isWhitespaceChar
  let sg := parseSign s1
  let ip := takeDigits sg.2
  let fp :=
    match ip.2 with
    | '.' :: r => takeDigits r
    | _ => ([], ip.2)
  if ip.1 = [] ∧ fp.1 = [] then none
  else
    let mantissa : ℚ := (natFromDigits ip.1 : ℚ) + (natFromDigits fp.1 : ℚ) / 10 ^ fp.1.length
    let e : ℤ := parseExp fp.2
    some ((if sg.1 then -mantissa else mantissa) * 10 ^ e)

/-- A JavaScript number whose canonical string form is a plain decimal
(sign, integer part, optional fractional digits).  The geocoding
provider's coordinates are such numbers; this is the domain on which the
codec's round-trip property is stated, matching the specification's
"coordinate equality up to floating-point string round-trip". -/
structure DecNum where
  neg : Bool
  intPart : ℕ
  fracDigits : List ℕ
deriving DecidableEq

/-- Fuel-driven most-significant-first decimal digits of `n` (the fuel
argument only serves structural termination; it is set to `n` itself in
`natDigits`). -/
def natDigitsAux : ℕ → ℕ → List ℕ
  | 0, n => [n]
  | fuel + 1, n => if n < 10 then [n] else natDigitsAux fuel (n / 10) ++ [n % 10]

/-- Most-significant-first decimal digits of `n`. -/
def natDigits (n : ℕ) : List ℕ := natDigitsAux n n

/-- The character list JavaScript prints for the number (its template
literal form, as interpolated into the city id). -/
def DecNum.chars (d : DecNum) : JStr :=
  (if d.neg then ['-'] else []) ++ (natDigits d.intPart).map digitChar ++
    (if d.fracDigits = [] then [] else '.' :: d.fracDigits.map digitChar)

/-- The rational value of the decimal number. -/
def DecNum.toRat (d : DecNum) : ℚ :=
  let m : ℚ := (d.intPart : ℚ) + (natFromDigits d.fracDigits : ℚ) / 10 ^ d.fracDigits.length
  if d.neg then -m else m

/-- Well-formedness of the stored fraction digits. -/
def DecNum.valid (d : DecNum) : Prop := ∀ x ∈ d.fracDigits, x < 10

/-- Error code `ERROR_CODES.USER_ERROR.BAD_USER_INPUT` from
`src/utils/constants.ts`. -/
def BAD_USER_INPUT : JStr := String.toList "BAD_USER_INPUT"

/-- Error code `ERROR_CODES.USER_ERROR.INVALID_COORDINATES` from
`src/utils/constants.ts`. -/
def INVALID_COORDINATES : JStr := String.toList "INVALID_COORDINATES"

/-- Message thrown by `parseCityId` when the id does not split on `':'`
into exactly three parts. -/
def msgIdFormat : JStr :=
  String.toList "Invalid city ID format. Expected format: \"lat,lon:name:country\""

/-- Message thrown by `parseCityId` when either coordinate string is
missing or empty. -/
def msgCoordFormat : JStr :=
  String.toList "Invalid coordinates in city ID. Expected format: \"lat,lon\""

/-- Message thrown by `parseCityId` when the parsed coordinates fail
validation. -/
def msgCoordRange : JStr :=
  String.toList "Invalid coordinates in city ID. Expected valid coordinates in the format: \"lat,lon\""

/-- Message thrown by `searchCities` on a too-short query. -/
def msgShortQuery : JStr := String.toList "Query must be at least 2 characters long"

/-- Model of the `OpenMeteoAPIError` class: the thrown message together
with its machine-readable code (every throw site in the modelled code
passes a code, so it is not optional here; the `cause` field carries no
behaviour and is omitted). -/
structure OpenMeteoAPIError where
  message : JStr
  code : JStr
deriving DecidableEq

/-- The result record of `parseCityId`. -/
structure ParsedCity where
  latitude : ℚ
  longitude : ℚ
  name : JStr
  country : JStr
deriving DecidableEq

/-- The `City` GraphQL type produced by `searchCities`. -/
structure City where
  id : JStr
  name : JStr
  country : JStr
  latitude : ℚ
  longitude : ℚ
deriving DecidableEq

/-- The fields of a geocoding-provider result that `searchCities`
reads (`name`, `latitude`, `longitude`, `country`, `feature_code`); the
coordinates are carried as printable decimals because the source
interpolates them into the id string. -/
structure GeocodingResult where
  name : JStr
  latitude : DecNum
  longitude : DecNum
  country : JStr
  feature_code : JStr

/-- The geocoding-provider response: `results` is optional. -/
structure GeocodingResponse where
  results : Option (List GeocodingResult)
  generationtime_ms : ℚ

/-- Model of `OpenMeteoAPI.isValidCoordinate`: both coordinates in
range.  The source's `!isNaN` conjuncts are represented by the `Option`
layer of `parseFloat` at the call sites (`ℚ` has no `NaN`). -/
def isValidCoordinate (latitude longitude : ℚ) : Bool :=
  decide (-90 ≤ latitude ∧ latitude ≤ 90 ∧ -180 ≤ longitude ∧ longitude ≤ 180)

/-- Model of `OpenMeteoAPI.parseCityId` (part_001 lines 287-308): split
the id on `':'` into exactly three parts, split the first part on `','`,
reject missing or empty coordinate strings, parse both coordinates and
validate them.  The branch in which `parseFloat` returns `none` is the
source's `NaN` flowing into `isValidCoordinate` and failing its
`!isNaN` conjuncts, producing the same error object. -/
def parseCityId (cityId : JStr) : Except OpenMeteoAPIError ParsedCity :=
  match splitChar ':' cityId with
  | [coords, name, country] =>
    match splitChar ',' coords with
    | latStr :: lonStr :: _ =>
      if latStr = [] ∨ lonStr = [] then
        Except.error ⟨msgCoordFormat, INVALID_COORDINATES⟩
      else
        match parseFloat latStr, parseFloat lonStr with
        | some latitude, some longitude =>
          if isValidCoordinate latitude longitude then
            Except.ok ⟨latitude, longitude, name, country⟩
          else Except.error ⟨msgCoordRange, INVALID_COORDINATES⟩
        | _, _ => Except.error ⟨msgCoordRange, INVALID_COORDINATES⟩
    | _ => Except.error ⟨msgCoordFormat, INVALID_COORDINATES⟩
  | _ => Except.error ⟨msgIdFormat, INVALID_COORDINATES⟩

/-- The id template of `searchCities` (part_001 line 184):
`"<lat>,<lon>:<name>:<country>"` with the coordinates in their
JavaScript string form. -/
def cityIdOf (latitude longitude : DecNum) (name country : JStr) : JStr :=
  latitude.chars ++ ',' :: longitude.chars ++ ':' :: name ++ ':' :: country

/-- The populated-place feature-code allow-list of `searchCities`
(part_001 lines 166-180). -/
def isPopulatedPlace (fc : JStr) : Bool :=
  fc = String.toList "PPLA" ∨ fc = String.toList "PPLA2" ∨
  fc = String.toList "PPLA3" ∨ fc = String.toList "PPLA4" ∨
  fc = String.toList "PPLC" ∨ fc = String.toList "PPL" ∨
  fc = String.toList "PPLF" ∨ fc = String.toList "PPLG" ∨
  fc = String.toList "PPLL" ∨ fc = String.toList "PPLR" ∨
  fc = String.toList "PPLS" ∨ fc = String.toList "PPLW"

/-- Mapping from one surviving geocoding result to a `City`
(part_001 lines 182-190). -/
def resultToCity (r : GeocodingResult) : City :=
  { id := cityIdOf r.latitude r.longitude r.name r.country
    name := r.name
    country := r.country
    latitude := r.latitude.toRat
    longitude := r.longitude.toRat }

/-- Model of `OpenMeteoAPI.searchCities` (part_001 lines 146-203).  The
decoded collaborator response is passed as an argument; the query
validation precedes, and is independent of, that response, which models
"fails before any network call is attempted".  The transport-failure
reclassification branches (timeout, HTTP 429) concern the network
collaborator itself and are outside the modelled claims. -/
def searchCities (query : JStr) (resp : GeocodingResponse) :
    Except OpenMeteoAPIError (List City) :=
  if query = [] ∨ (jsTrim query).length < 2 then
    Except.error ⟨msgShortQuery, BAD_USER_INPUT⟩
  else
    match resp.results with
    | none => Except.ok []
    | some rs => Except.ok ((rs.filter fun r => isPopulatedPlace r.feature_code).map resultToCity)

/-- An activity profile (`ActivityConfig` in `src/utils/constants.ts`). -/
structure ActivityConfig where
  name : JStr
  idealTempMin : ℚ
  idealTempMax : ℚ
  rainTolerance : ℚ
  windPreference : ℚ
deriving DecidableEq

/-- A scored activity (`Activity` GraphQL type): after `Math.round` the
score is an integer. -/
structure Activity where
  name : JStr
  suitabilityScore : ℤ
  reasoning : JStr
deriving DecidableEq

/-- The shipped profile table `ACTIVITY_CONFIGS` from
`src/utils/constants.ts`, in its source order. -/
def ACTIVITY_CONFIGS : List ActivityConfig :=
  [⟨String.toList "skiing", -10, 2, 1/10, 2/10⟩,
   ⟨String.toList "surfing", 18, 28, 7/10, 8/10⟩,
   ⟨String.toList "indoor_sightseeing", 10, 30, 1, 5/10⟩,
   ⟨String.toList "outdoor_sightseeing", 15, 25, 1/10, 3/10⟩]

/-- JavaScript `Math.round`: round half toward positive infinity. -/
def jsRound (q : ℚ) : ℤ := ⌊q + 1/2⌋

/-- Bool test used by `Array.prototype.includes`-style substring check
`config.name.includes('indoor')`: whether `p` occurs as a prefix of
`l`. -/
def listStartsWith : JStr → JStr → Bool
  | [], _ => true
  | _ :: _, [] => false
  | a :: p, b :: l => a = b && listStartsWith p l

/-- Model of `String.prototype.includes`: whether `needle` occurs as a
contiguous substring of `hay`. -/
def listContainsSub (hay needle : JStr) : Bool :=
  listStartsWith needle hay ||
    match hay with
    | [] => false
    | _ :: t => listContainsSub t needle

/-- Model of `ActivityRankingService.scoreActivity` (part_000 lines
68-123).  Each numbered step threads the running score and the reason
tags exactly as the source's sequential mutations do: temperature term,
precipitation term, wind term, indoor extreme-weather bonus, then the
final clamp-and-round and the `reasons.join(', ') || 'standard
conditions'` fallback.  The `precipitation` and `windSpeed` parameters
are passed by the source but unused by its body; they are kept for
fidelity. -/
def scoreActivity (config : ActivityConfig) (avgTemp : ℚ) (hasRain isWindy : Bool)
    (precipitation windSpeed : ℚ) : Activity :=
  let p1 :=
    if config.idealTempMin ≤ avgTemp ∧ avgTemp ≤ config.idealTempMax then
      ((50 : ℚ) + 30, [String.toList "ideal temperature"])
    else if avgTemp < config.idealTempMin then
      ((50 : ℚ) - min 30 ((config.idealTempMin - avgTemp) * 5), [String.toList "too cold"])
    else
      ((50 : ℚ) - min 30 ((avgTemp - config.idealTempMax) * 5), [String.toList "too warm"])
  let p2 :=
    if hasRain then
      let s := p1.1 - (1 - config.rainTolerance) * 20
      if config.rainTolerance > 8/10 then
        (s + 10, p1.2 ++ [String.toList "rain makes it more appealing"])
      else if config.rainTolerance < 3/10 then
        (s, p1.2 ++ [String.toList "rain not ideal"])
      else (s, p1.2)
    else
      if config.rainTolerance < 3/10 then
        (p1.1 + 10, p1.2 ++ [String.toList "no rain"])
      else p1
  let p3 :=
    if isWindy then
      let s := p2.1 + (config.windPreference * 15 - 15/2)
      if config.windPreference > 6/10 then
        (s, p2.2 ++ [String.toList "good wind conditions"])
      else if config.windPreference < 4/10 then
        (s, p2.2 ++ [String.toList "windy conditions"])
      else (s, p2.2)
    else p2
  let p4 :=
    if listContainsSub config.name (String.toList "indoor") ∧ (avgTemp < 10 ∨ avgTemp > 30) then
      (p3.1 + 15, p3.2 ++ [String.toList "extreme weather favors indoor activities"])
    else p3
  { name := config.name
    suitabilityScore := max 0 (min 100 (jsRound p4.1))
    reasoning :=
      let j := joinSep (String.toList ", ") p4.2
      if j = [] then String.toList "standard conditions" else j }

/-- The per-day weather summary consumed by the ranking service
(`Omit<DailyForecast, 'activities'>`). -/
structure Forecast where
  date : JStr
  maxTemp : ℚ
  minTemp : ℚ
  conditions : JStr
  precipitation : ℚ
  windSpeed : ℚ

/-- Stable descending insertion: walk past strictly greater scores, so
that among equal scores the originally earlier element stays first.
This is the behaviour of the source's stable `Array.prototype.sort` with
comparator `(a, b) => b.suitabilityScore - a.suitabilityScore`. -/
def insertDesc (a : Activity) : List Activity → List Activity
  | [] => [a]
  | b :: l =>
    if b.suitabilityScore > a.suitabilityScore then b :: insertDesc a l
    else a :: b :: l

/-- Stable descending sort by `suitabilityScore`. -/
def sortDesc : List Activity → List Activity
  | [] => []
  | a :: l => insertDesc a (sortDesc l)

/-- The index `Array.prototype.slice(0, end)` stops at: a negative `end`
counts back from the length, a non-negative one is capped by it. -/
def jsSliceEnd (len : ℕ) (e : ℤ) : ℕ :=
  if e < 0 then len - e.natAbs else min e.toNat len

/-- The scored-but-unsorted activity list of one forecast day: the
source's `const activities = ACTIVITY_CONFIGS.map(...)` together with
the `avgTemp`, `hasRain` and `isWindy` bindings above it. -/
def scoredActivities (forecast : Forecast) : List Activity :=
  ACTIVITY_CONFIGS.map fun config =>
    scoreActivity config ((forecast.maxTemp + forecast.minTemp) / 2)
      (decide (forecast.precipitation > 1)) (decide (forecast.windSpeed > 20))
      forecast.precipitation forecast.windSpeed

/-- Model of `ActivityRankingService.rankActivitiesForDay` (part_000
lines 48-56): score every profile, sort descending by score (stable) and
`slice(0, top)`. -/
def rankActivitiesForDay (forecast : Forecast) (top : ℤ := 1) : List Activity :=
  let activities := scoredActivities forecast
  (sortDesc activities).take (jsSliceEnd (sortDesc activities).length top)

/-- The forecast day of the specification scenario and of the
repository's own test (`{maxTemp: 22, minTemp: 18, precipitation: 0,
windSpeed: 5}`). -/
def clearMildDay : Forecast :=
  ⟨String.toList "2025-01-01", 22, 18, String.toList "Clear sky", 0, 5⟩

/-- The condition under which the destructuring
`const [latStr, lonStr] = coords.split(',')` followed by
`if (!latStr || !lonStr)` rejects the coordinates part: fewer than two
split pieces (an `undefined` piece is falsy) or an empty first or second
piece. -/
def missingCoordPart : List JStr → Prop
  | a :: b :: _ => a = [] ∨ b = []
  | _ => True

/-- Splitting never yields the empty list of parts. -/
theorem splitChar_ne_nil (sep : Char) (l : JStr) : splitChar sep l ≠ [] := by
  induction l with
  | nil => simp [splitChar]
  | cons c r ih =>
    rw [splitChar]
    by_cases h : c = sep
    · simp [h]
    · simp only [h, if_false]
      rcases hr : splitChar sep r with _ | ⟨p, ps⟩
      · exact absurd hr ih
      · simp

/-- A string free of the separator splits into itself alone. -/
theorem splitChar_eq_self (sep : Char) (l : JStr) (h : sep ∉ l) :
    splitChar sep l = [l] := by
  induction l with
  | nil => rfl
  | cons c r ih =>
    have hc : c ≠ sep := fun hc => h (hc ▸ List.mem_cons_self c r)
    have hr : sep ∉ r := fun hm => h (List.mem_cons_of_mem c hm)
    rw [splitChar]
    simp only [hc, if_false]
    rw [ih hr]

/-- Splitting a string whose prefix before the first separator is
`a`. -/
theorem splitChar_append (sep : Char) (a r : JStr) (h : sep ∉ a) :
    splitChar sep (a ++ sep :: r) = a :: splitChar sep r := by
  induction a with
  | nil => simp [splitChar]
  | cons c t ih =>
    have hc : c ≠ sep := fun hc => h (hc ▸ List.mem_cons_self c t)
    have ht : sep ∉ t := fun hm => h (List.mem_cons_of_mem c hm)
    rw [List.cons_append, splitChar]
    simp only [hc, if_false]
    rw [ih ht]

/-- Printed digits are digit characters. -/
theorem isDigitChar_digitChar (d : ℕ) : isDigitChar (digitChar d) = true := by
  rcases d with _ | _ | _ | _ | _ | _ | _ | _ | _ | _ | d <;> rfl

/-- Printing then reading a decimal digit is the identity. -/
theorem digitVal_digitChar (d : ℕ) (h : d < 10) : digitVal (digitChar d) = d := by
  interval_cases d <;> rfl

/-- Every printed digit is one of the ten digit characters. -/
theorem digitChar_mem (d : ℕ) : digitChar d ∈ String.toList "0123456789" := by
  rcases d with _ | _ | _ | _ | _ | _ | _ | _ | _ | _ | d <;>
    first
      | exact List.mem_cons_self _ _
      | decide

/-- A digit character is not a separator, sign, dot or whitespace. -/
theorem digitChar_not_special (d : ℕ) :
    digitChar d ≠ ':' ∧ digitChar d ≠ ',' ∧ digitChar d ≠ '-' ∧ digitChar d ≠ '+' ∧
      digitChar d ≠ '.' ∧ isWhitespaceChar (digitChar d) = false := by
  have h := digitChar_mem d
  revert h
  generalize digitChar d = c
  intro h
  fin_cases h <;> exact ⟨by decide, by decide, by decide, by decide, by decide, by decide⟩

/-- The digit run at the front of `ds.map digitChar ++ r` is exactly
`ds`, provided `r` does not begin with a digit. -/
theorem takeDigits_map_append (ds : List ℕ) (r : JStr) (hds : ∀ d ∈ ds, d < 10)
    (hr : ∀ c, r.head? = some c → isDigitChar c = false) :
    takeDigits (ds.map digitChar ++ r) = (ds, r) := by
  induction ds with
  | nil =>
    simp only [List.map_nil, List.nil_append]
    cases r with
    | nil => rfl
    | cons c t =>
      rw [takeDigits]
      simp [hr c rfl]
  | cons d t ih =>
    rw [List.map_cons, List.cons_append, takeDigits]
    simp only [isDigitChar_digitChar, if_true]
    rw [ih (fun x hx => hds x (List.mem_cons_of_mem d hx))]
    rw [digitVal_digitChar d (hds d (List.mem_cons_self d t))]

/-- Appending a least-significant digit multiplies the value by ten. -/
theorem natFromDigits_append (ds : List ℕ) (d : ℕ) :
    natFromDigits (ds ++ [d]) = natFromDigits ds * 10 + d := by
  simp [natFromDigits, List.foldl_append]

/-- The fuel-driven digit expansion is correct whenever the fuel
dominates the number: its value is `n`, its digits are decimal and it is
nonempty. -/
theorem natDigitsAux_spec (fuel n : ℕ) (h : n ≤ fuel) :
    natFromDigits (natDigitsAux fuel n) = n ∧
      (∀ d ∈ natDigitsAux fuel n, d < 10) ∧ natDigitsAux fuel n ≠ [] := by
  induction fuel generalizing n with
  | zero =>
    have : n = 0 := Nat.le_zero.mp h
    subst this
    refine ⟨rfl, ?_, by simp [natDigitsAux]⟩
    intro d hd
    simp [natDigitsAux] at hd
    omega
  | succ fuel ih =>
    rw [natDigitsAux]
    by_cases hn : n < 10
    · refine ⟨by simp [natFromDigits, hn], ?_, by simp [hn]⟩
      intro d hd
      simp [hn] at hd
      omega
    · have hd10 : n / 10 ≤ fuel := by omega
      obtain ⟨hv, hb, hne⟩ := ih (n / 10) hd10
      simp only [hn, if_false]
      refine ⟨?_, ?_, by simp⟩
      · rw [natFromDigits_append, hv]
        omega
      · intro d hd
        rcases List.mem_append.mp hd with hd | hd
        · exact hb d hd
        · simp at hd
          omega

/-- Value correctness of `natDigits`. -/
theorem natFromDigits_natDigits (n : ℕ) : natFromDigits (natDigits n) = n :=
  (natDigitsAux_spec n n le_rfl).1

/-- Digit bounds of `natDigits`. -/
theorem natDigits_lt_ten (n : ℕ) : ∀ d ∈ natDigits n, d < 10 :=
  (natDigitsAux_spec n n le_rfl).2.1

/-- Nonemptiness of `natDigits`. -/
theorem natDigits_ne_nil (n : ℕ) : natDigits n ≠ [] :=
  (natDigitsAux_spec n n le_rfl).2.2

/-- Every character of a printed decimal is a sign, a dot or a digit. -/
theorem mem_decChars (d : DecNum) (c : Char) (h : c ∈ d.chars) :
    c = '-' ∨ c = '.' ∨ ∃ k, c = digitChar k := by
  rw [DecNum.chars] at h
  rcases List.mem_append.mp h with h1 | h2
  · rcases List.mem_append.mp h1 with hs | hm
    · cases hn : d.neg <;> rw [hn] at hs <;> simp at hs
      exact Or.inl hs
    · rcases List.mem_map.mp hm with ⟨k, _, hk⟩
      exact Or.inr (Or.inr ⟨k, hk.symm⟩)
  · by_cases hf : d.fracDigits = [] <;> simp only [hf, if_true, if_false] at h2
    · simp at h2
    · rcases List.mem_cons.mp h2 with h3 | h3
      · exact Or.inr (Or.inl h3)
      · rcases List.mem_map.mp h3 with ⟨k, _, hk⟩
        exact Or.inr (Or.inr ⟨k, hk.symm⟩)

/-- A printed decimal never contains a colon. -/
theorem colon_not_mem_decChars (d : DecNum) : ':' ∉ d.chars := by
  intro h
  rcases mem_decChars d ':' h with h1 | h1 | ⟨k, hk⟩
  · exact absurd h1 (by decide)
  · exact absurd h1 (by decide)
  · exact absurd hk.symm (digitChar_not_special k).1

/-- A printed decimal never contains a comma. -/
theorem comma_not_mem_decChars (d : DecNum) : ',' ∉ d.chars := by
  intro h
  rcases mem_decChars d ',' h with h1 | h1 | ⟨k, hk⟩
  · exact absurd h1 (by decide)
  · exact absurd h1 (by decide)
  · exact absurd hk.symm (digitChar_not_special k).2.1

/-- A printed decimal is never the empty string. -/
theorem decChars_ne_nil (d : DecNum) : d.chars ≠ [] := by
  rw [DecNum.chars]
  intro h
  rcases List.append_eq_nil.mp h with ⟨h1, -⟩
  rcases List.append_eq_nil.mp h1 with ⟨-, h3⟩
  exact natDigits_ne_nil d.intPart (List.map_eq_nil_iff.mp h3)

/-- A character that is neither sign consumes no sign. -/
theorem parseSign_other (c : Char) (r : JStr) (h1 : c ≠ '-') (h2 : c ≠ '+') :
    parseSign (c :: r) = (false, c :: r) := by
  rw [parseSign.eq_def]
  split
  · next heq => rw [List.cons.injEq] at heq; exact absurd heq.1 h1
  · next heq => rw [List.cons.injEq] at heq; exact absurd heq.1 h2
  · rfl

/-- Reading back the printed form of a plain decimal recovers its exact
rational value: the `parseFloat ∘ toString` round trip of the modelled
JavaScript numbers. -/
theorem parseFloat_decChars (d : DecNum) (hv : d.valid) :
    parseFloat d.chars = some d.toRat := by
  have hfq : (fun c => (if d.fracDigits = [] then ([] : JStr)
      else '.' :: d.fracDigits.map digitChar).head? = some c → isDigitChar c = false) =
      fun c => (if d.fracDigits = [] then ([] : JStr)
      else '.' :: d.fracDigits.map digitChar).head? = some c → isDigitChar c = false := rfl
  have hbody : takeDigits ((natDigits d.intPart).map digitChar ++
      (if d.fracDigits = [] then [] else '.' :: d.fracDigits.map digitChar)) =
      (natDigits d.intPart,
        if d.fracDigits = [] then [] else '.' :: d.fracDigits.map digitChar) := by
    apply takeDigits_map_append _ _ (natDigits_lt_ten d.intPart)
    intro c hc
    by_cases hf : d.fracDigits = [] <;> simp only [hf, if_true, if_false] at hc
    · exact absurd hc (by simp)
    · rw [List.head?_cons, Option.some.injEq] at hc
      rw [← hc]
      decide
  have hfracTake : takeDigits (d.fracDigits.map digitChar) = (d.fracDigits, []) := by
    rw [← List.append_nil (d.fracDigits.map digitChar)]
    apply takeDigits_map_append _ _ hv
    intro c hc
    exact absurd hc (by simp)
  have hdrop : ∀ c r, isWhitespaceChar c = false →
      List.dropWhile isWhitespaceChar (c :: r) = c :: r := by
    intro c r hc
    rw [List.dropWhile_cons, hc]
    simp
  clear hfq
  rcases hnd : natDigits d.intPart with _ | ⟨d0, ds⟩
  · exact absurd hnd (natDigits_ne_nil d.intPart)
  rw [parseFloat]
  cases hneg : d.neg
  · -- no sign character is printed
    have hchars : d.chars = digitChar d0 :: (ds.map digitChar ++
        (if d.fracDigits = [] then [] else '.' :: d.fracDigits.map digitChar)) := by
      rw [DecNum.chars, hneg, hnd]
      simp
    rw [hchars, hdrop _ _ (digitChar_not_special d0).2.2.2.2.2,
      parseSign_other _ _ (digitChar_not_special d0).2.2.1 (digitChar_not_special d0).2.2.2.1,
      ← hchars]
    have hchars2 : d.chars = (natDigits d.intPart).map digitChar ++
        (if d.fracDigits = [] then [] else '.' :: d.fracDigits.map digitChar) := by
      rw [DecNum.chars, hneg]
      simp
    rw [hchars2, hbody]
    by_cases hf : d.fracDigits = []
    · simp only [hf, if_true]
      rw [natFromDigits_natDigits]
      simp [DecNum.toRat, hneg, hf, natFromDigits, parseExp, natDigits_ne_nil]
    · simp only [hf, if_false]
      have hne : natDigits d.intPart ≠ [] := natDigits_ne_nil d.intPart
      simp only [hfracTake, hne, false_and, if_false]
      rw [natFromDigits_natDigits]
      simp [DecNum.toRat, hneg, parseExp]
  · -- a '-' sign is printed first
    have hchars : d.chars = '-' :: ((natDigits d.intPart).map digitChar ++
        (if d.fracDigits = [] then [] else '.' :: d.fracDigits.map digitChar)) := by
      rw [DecNum.chars, hneg]
      simp
    rw [hchars, hdrop _ _ (by decide)]
    have hsign : parseSign ('-' :: ((natDigits d.intPart).map digitChar ++
        (if d.fracDigits = [] then [] else '.' :: d.fracDigits.map digitChar))) =
        (true, (natDigits d.intPart).map digitChar ++
          (if d.fracDigits = [] then [] else '.' :: d.fracDigits.map digitChar)) := rfl
    rw [hsign, hbody]
    by_cases hf : d.fracDigits = []
    · simp only [hf, if_true]
      rw [natFromDigits_natDigits]
      simp [DecNum.toRat, hneg, hf, natFromDigits, parseExp, natDigits_ne_nil]
    · simp only [hf, if_false]
      have hne : natDigits d.intPart ≠ [] := natDigits_ne_nil d.intPart
      simp only [hfracTake, hne, false_and, if_false]
      rw [natFromDigits_natDigits]
      simp [DecNum.toRat, hneg, parseExp]

/-- Evaluation of `parseCityId` on an id that splits into exactly three
colon-separated parts: the body of the source's main branch. -/
theorem parseCityId_of_split3 (cityId coords name country : JStr)
    (h : splitChar ':' cityId = [coords, name, country]) :
    parseCityId cityId =
      match splitChar ',' coords with
      | latStr :: lonStr :: _ =>
        if latStr = [] ∨ lonStr = [] then
          Except.error ⟨msgCoordFormat, INVALID_COORDINATES⟩
        else
          match parseFloat latStr, parseFloat lonStr with
          | some latitude, some longitude =>
            if isValidCoordinate latitude longitude then
              Except.ok ⟨latitude, longitude, name, country⟩
            else Except.error ⟨msgCoordRange, INVALID_COORDINATES⟩
          | _, _ => Except.error ⟨msgCoordRange, INVALID_COORDINATES⟩
      | _ => Except.error ⟨msgCoordFormat, INVALID_COORDINATES⟩ := by
  rw [parseCityId.eq_def, h]

/-- Evaluation of `parseCityId` on an id of the encoded shape
`"<a>,<b>:<name>:<country>"` whose pieces are free of the two separator
characters: the outcome is decided exactly by emptiness, parseability
and validity of the two coordinate strings. -/
theorem parseCityId_encoded (a b name country : JStr)
    (ha1 : ':' ∉ a) (ha2 : ',' ∉ a) (hb1 : ':' ∉ b) (hb2 : ',' ∉ b)
    (hn : ':' ∉ name) (hc : ':' ∉ country) :
    parseCityId (a ++ ',' :: b ++ ':' :: name ++ ':' :: country) =
      if a = [] ∨ b = [] then Except.error ⟨msgCoordFormat, INVALID_COORDINATES⟩
      else
        match parseFloat a, parseFloat b with
        | some latitude, some longitude =>
          if isValidCoordinate latitude longitude then
            Except.ok ⟨latitude, longitude, name, country⟩
          else Except.error ⟨msgCoordRange, INVALID_COORDINATES⟩
        | _, _ => Except.error ⟨msgCoordRange, INVALID_COORDINATES⟩ := by
  have hA : ':' ∉ a ++ ',' :: b := by
    intro hm
    rcases List.mem_append.mp hm with hm | hm
    · exact ha1 hm
    · rcases List.mem_cons.mp hm with hm | hm
      · exact absurd hm (by decide)
      · exact hb1 hm
  have hshape : a ++ ',' :: b ++ ':' :: name ++ ':' :: country =
      (a ++ ',' :: b) ++ ':' :: (name ++ ':' :: country) := by
    simp
  have hsplit : splitChar ':' (a ++ ',' :: b ++ ':' :: name ++ ':' :: country) =
      [a ++ ',' :: b, name, country] := by
    rw [hshape, splitChar_append ':' _ _ hA, splitChar_append ':' _ _ hn,
      splitChar_eq_self ':' _ hc]
  rw [parseCityId_of_split3 _ _ _ _ hsplit, splitChar_append ',' _ _ ha2,
    splitChar_eq_self ',' _ hb2]

/-- C1.  Codec round-trip: for every latitude and longitude (given as
plain printable decimals, the "up to floating-point string round-trip"
domain) that satisfy `validateCoordinate`, and every colon-free name and
country, decoding the id built by `searchCities`
(`"<lat>,<lon>:<name>:<country>"`) with `parseCityId` recovers exactly
the same four fields. -/
theorem c1_codec_round_trip (lat lon : DecNum) (name country : JStr)
    (hlat : lat.valid) (hlon : lon.valid)
    (hn : ':' ∉ name) (hc : ':' ∉ country)
    (hok : isValidCoordinate lat.toRat lon.toRat = true) :
    parseCityId (cityIdOf lat lon name country) =
      Except.ok ⟨lat.toRat, lon.toRat, name, country⟩ := by
  rw [cityIdOf, parseCityId_encoded lat.chars lon.chars name country
    (colon_not_mem_decChars lat) (comma_not_mem_decChars lat)
    (colon_not_mem_decChars lon) (comma_not_mem_decChars lon) hn hc]
  rw [if_neg (by simp [decChars_ne_nil])]
  rw [parseFloat_decChars lat hlat, parseFloat_decChars lon hlon]
  simp [hok]

/-- Witness for C1 at Cape Town's coordinates:
`"-33.92584,18.42322:Cape Town:South Africa"`. -/
theorem c1_codec_round_trip_witness :
    parseCityId (cityIdOf ⟨true, 33, [9, 2, 5, 8, 4]⟩ ⟨false, 18, [4, 2, 3, 2, 2]⟩
        (String.toList "Cape Town") (String.toList "South Africa")) =
      Except.ok ⟨DecNum.toRat ⟨true, 33, [9, 2, 5, 8, 4]⟩,
        DecNum.toRat ⟨false, 18, [4, 2, 3, 2, 2]⟩,
        String.toList "Cape Town", String.toList "South Africa"⟩ :=
  c1_codec_round_trip ⟨true, 33, [9, 2, 5, 8, 4]⟩ ⟨false, 18, [4, 2, 3, 2, 2]⟩
    (String.toList "Cape Town") (String.toList "South Africa")
    (by intro x hx; fin_cases hx <;> omega) (by intro x hx; fin_cases hx <;> omega)
    (by decide) (by decide)
    (by rw [isValidCoordinate, decide_eq_true_eq]
        norm_num [DecNum.toRat, natFromDigits])

/-- The empty string is not a number. -/
theorem parseFloat_nil : parseFloat [] = none := rfl

/-- C4 (amended).  Format failures of `parseCityId` — not exactly three
colon parts, or a missing/empty coordinate piece — produce the
format-specific messages, but under the code `INVALID_COORDINATES`: the
repository defines no separate `InvalidFormat` code, so the distinction
from numeric/range failures is carried by the message alone. -/
theorem c4_format_failures (id : JStr) :
    ((splitChar ':' id).length ≠ 3 →
      parseCityId id = Except.error ⟨msgIdFormat, INVALID_COORDINATES⟩) ∧
    (∀ coords name country, splitChar ':' id = [coords, name, country] →
      missingCoordPart (splitChar ',' coords) →
      parseCityId id = Except.error ⟨msgCoordFormat, INVALID_COORDINATES⟩) := by
  constructor
  · intro hlen
    rcases hs : splitChar ':' id with _ | ⟨x, _ | ⟨y, _ | ⟨z, _ | ⟨w, t⟩⟩⟩⟩
    · rw [parseCityId.eq_def, hs]
    · rw [parseCityId.eq_def, hs]
    · rw [parseCityId.eq_def, hs]
    · exact absurd (by rw [hs]; rfl) hlen
    · rw [parseCityId.eq_def, hs]
  · intro coords name country hs hmiss
    rw [parseCityId_of_split3 _ _ _ _ hs]
    rcases hcs : splitChar ',' coords with _ | ⟨la, _ | ⟨lo, t⟩⟩
    · rfl
    · rfl
    · rw [hcs] at hmiss
      simp only [missingCoordPart] at hmiss
      rcases hmiss with h | h <;> subst h <;> simp

/-- Witness for C4 (amended): `"invalid-format"` has one colon part and
is rejected with the format message under `INVALID_COORDINATES`. -/
theorem c4_format_failures_witness :
    parseCityId (String.toList "invalid-format") =
      Except.error ⟨msgIdFormat, INVALID_COORDINATES⟩ :=
  (c4_format_failures (String.toList "invalid-format")).1 (by decide)

/-- Counterexample to C4 as stated: both a malformed id and an
out-of-range id fail with the same `INVALID_COORDINATES` code — the
format failure is not raised under a distinct `InvalidFormat` error
code. -/
theorem c4_counterexample :
    (parseCityId (String.toList "invalid-format")).mapError OpenMeteoAPIError.code =
        Except.error INVALID_COORDINATES ∧
      (parseCityId (String.toList "999,999:Atlantis:Ocean")).mapError OpenMeteoAPIError.code =
        Except.error INVALID_COORDINATES := by
  constructor
  · rfl
  · have hshape : String.toList "999,999:Atlantis:Ocean" =
        String.toList "999" ++ ',' :: String.toList "999" ++ ':' ::
          String.toList "Atlantis" ++ ':' :: String.toList "Ocean" := by decide
    have hval : String.toList "999" = DecNum.chars ⟨false, 999, []⟩ := by decide
    have hp : parseFloat (String.toList "999") = some (DecNum.toRat ⟨false, 999, []⟩) := by
      rw [hval]
      exact parseFloat_decChars _ (by intro x hx; exact absurd hx (List.not_mem_nil x))
    have hiv : isValidCoordinate (DecNum.toRat ⟨false, 999, []⟩)
        (DecNum.toRat ⟨false, 999, []⟩) = false := by
      rw [isValidCoordinate, decide_eq_false_iff_not]
      norm_num [DecNum.toRat, natFromDigits]
    rw [hshape, parseCityId_encoded _ _ _ _ (by decide) (by decide) (by decide) (by decide)
      (by decide) (by decide)]
    rw [if_neg (by decide), hp]
    simp [hiv, Except.mapError]

/-- C5.  On an id of the encoded shape `"<a>,<b>:<name>:<country>"`
(pieces free of the separator characters), `parseCityId` fails with the
`INVALID_COORDINATES` code exactly when one of the coordinate strings is
non-numeric (`parseFloat` yields `NaN`, modelled as `none`) or the
parsed pair fails `validateCoordinate`. -/
theorem c5_invalid_coordinates_iff (a b name country : JStr)
    (ha1 : ':' ∉ a) (ha2 : ',' ∉ a) (hb1 : ':' ∉ b) (hb2 : ',' ∉ b)
    (hn : ':' ∉ name) (hc : ':' ∉ country) :
    (∃ e, parseCityId (a ++ ',' :: b ++ ':' :: name ++ ':' :: country) =
        Except.error e ∧ e.code = INVALID_COORDINATES) ↔
      ¬(∃ la lo, parseFloat a = some la ∧ parseFloat b = some lo ∧
          isValidCoordinate la lo = true) := by
  rw [parseCityId_encoded a b name country ha1 ha2 hb1 hb2 hn hc]
  by_cases hab : a = [] ∨ b = []
  · rw [if_pos hab]
    constructor
    · rintro - ⟨la, lo, h1, h2, -⟩
      rcases hab with hab | hab <;> subst hab
      · rw [parseFloat_nil] at h1
        exact Option.noConfusion h1
      · rw [parseFloat_nil] at h2
        exact Option.noConfusion h2
    · intro hne
      exact ⟨⟨msgCoordFormat, INVALID_COORDINATES⟩, rfl, rfl⟩
  · rw [if_neg hab]
    rcases hpa : parseFloat a with _ | la
    · constructor
      · rintro - ⟨la, lo, h1, -, -⟩
        exact Option.noConfusion h1
      · intro hne
        exact ⟨⟨msgCoordRange, INVALID_COORDINATES⟩, rfl, rfl⟩
    · rcases hpb : parseFloat b with _ | lo
      · constructor
        · rintro - ⟨la', lo', -, h2, -⟩
          exact Option.noConfusion h2
        · intro hne
          exact ⟨⟨msgCoordRange, INVALID_COORDINATES⟩, rfl, rfl⟩
      · rw [show (match some la, some lo with
            | some latitude, some longitude =>
              if isValidCoordinate latitude longitude = true then
                (Except.ok ⟨latitude, longitude, name, country⟩ :
                  Except OpenMeteoAPIError ParsedCity)
              else Except.error ⟨msgCoordRange, INVALID_COORDINATES⟩
            | _, _ => Except.error ⟨msgCoordRange, INVALID_COORDINATES⟩) =
            if isValidCoordinate la lo = true then
              Except.ok ⟨la, lo, name, country⟩
            else Except.error ⟨msgCoordRange, INVALID_COORDINATES⟩ from rfl]
        by_cases hv : isValidCoordinate la lo = true
        · rw [if_pos hv]
          constructor
          · rintro ⟨e, he, -⟩
            exact Except.noConfusion he
          · intro hne
            exact absurd ⟨la, lo, rfl, rfl, hv⟩ hne
        · rw [if_neg hv]
          constructor
          · rintro - ⟨la', lo', h1, h2, h3⟩
            rw [Option.some.injEq] at h1 h2
            subst h1
            subst h2
            exact hv h3
          · intro hne
            exact ⟨⟨msgCoordRange, INVALID_COORDINATES⟩, rfl, rfl⟩

/-- Witness for C5: the specification's own scenario
`decode("999,999:Atlantis:Ocean")` fails with `INVALID_COORDINATES`
(999 is out of latitude range). -/
theorem c5_invalid_coordinates_iff_witness :
    ∃ e, parseCityId (String.toList "999" ++ ',' :: String.toList "999" ++ ':' ::
        String.toList "Atlantis" ++ ':' :: String.toList "Ocean") =
      Except.error e ∧ e.code = INVALID_COORDINATES := by
  apply (c5_invalid_coordinates_iff (String.toList "999") (String.toList "999")
    (String.toList "Atlantis") (String.toList "Ocean")
    (by decide) (by decide) (by decide) (by decide) (by decide) (by decide)).mpr
  rintro ⟨la, lo, h1, h2, h3⟩
  have hval : String.toList "999" = DecNum.chars ⟨false, 999, []⟩ := by decide
  have hp : parseFloat (String.toList "999") = some (DecNum.toRat ⟨false, 999, []⟩) := by
    rw [hval]
    exact parseFloat_decChars _ (by intro x hx; exact absurd hx (List.not_mem_nil x))
  rw [hp, Option.some.injEq] at h1 h2
  subst h1
  subst h2
  rw [isValidCoordinate, decide_eq_true_eq] at h3
  rw [DecNum.toRat] at h3
  norm_num [natFromDigits] at h3

/-- Trimming the empty query yields the empty string. -/
theorem jsTrim_nil : jsTrim [] = [] := rfl

/-- C8.  Every query whose trimmed length is below two (including the
empty string) makes `searchCities` fail with `BAD_USER_INPUT` — and the
outcome is the same for every collaborator response, i.e. it is decided
before any network call. -/
theorem c8_short_query_rejected (query : JStr) (resp : GeocodingResponse)
    (h : (jsTrim query).length < 2) :
    searchCities query resp = Except.error ⟨msgShortQuery, BAD_USER_INPUT⟩ := by
  rw [searchCities, if_pos (Or.inr h)]

/-- Witness for C8: `searchCities("a")` is rejected whatever the
collaborator would have answered. -/
theorem c8_short_query_rejected_witness :
    searchCities (String.toList "a") ⟨some [], 0⟩ =
      Except.error ⟨msgShortQuery, BAD_USER_INPUT⟩ :=
  c8_short_query_rejected (String.toList "a") ⟨some [], 0⟩ (by decide)

/-- C9.  When the collaborator response carries no `results` field, a
valid query returns the empty city list rather than an error. -/
theorem c9_absent_results_empty (query : JStr) (gt : ℚ)
    (h : 2 ≤ (jsTrim query).length) :
    searchCities query ⟨none, gt⟩ = Except.ok [] := by
  rw [searchCities, if_neg]
  rintro (hq | hq)
  · rw [hq, jsTrim_nil] at h
    exact absurd h (by decide)
  · omega

/-- Witness for C9 at the query `"london"`. -/
theorem c9_absent_results_empty_witness :
    searchCities (String.toList "london") ⟨none, 0⟩ = Except.ok [] :=
  c9_absent_results_empty (String.toList "london") 0 (by decide)

/-- Membership through stable insertion. -/
theorem mem_insertDesc (a x : Activity) (l : List Activity) :
    x ∈ insertDesc a l ↔ x = a ∨ x ∈ l := by
  induction l with
  | nil => simp [insertDesc]
  | cons b t ih =>
    rw [insertDesc]
    by_cases hb : b.suitabilityScore > a.suitabilityScore
    · rw [if_pos hb]
      simp only [List.mem_cons, ih]
      tauto
    · rw [if_neg hb]
      simp only [List.mem_cons]

/-- Insertion grows the length by one. -/
theorem length_insertDesc (a : Activity) (l : List Activity) :
    (insertDesc a l).length = l.length + 1 := by
  induction l with
  | nil => rfl
  | cons b t ih =>
    rw [insertDesc]
    by_cases hb : b.suitabilityScore > a.suitabilityScore
    · rw [if_pos hb]
      simp [ih]
    · rw [if_neg hb]
      simp

/-- Insertion preserves the non-increasing-score invariant. -/
theorem pairwise_insertDesc (a : Activity) (l : List Activity)
    (h : l.Pairwise fun x y => y.suitabilityScore ≤ x.suitabilityScore) :
    (insertDesc a l).Pairwise fun x y => y.suitabilityScore ≤ x.suitabilityScore := by
  induction l with
  | nil => simp [insertDesc]
  | cons b t ih =>
    rw [List.pairwise_cons] at h
    rw [insertDesc]
    by_cases hb : b.suitabilityScore > a.suitabilityScore
    · rw [if_pos hb]
      rw [List.pairwise_cons]
      refine ⟨?_, ih h.2⟩
      intro x hx
      rcases (mem_insertDesc a x t).mp hx with hx | hx
      · rw [hx]
        exact le_of_lt hb
      · exact h.1 x hx
    · rw [if_neg hb]
      rw [List.pairwise_cons]
      refine ⟨?_, List.pairwise_cons.mpr h⟩
      intro x hx
      rcases List.mem_cons.mp hx with hx | hx
      · rw [hx]
        omega
      · exact le_trans (h.1 x hx) (by omega)

/-- The sorted list is non-increasing in score. -/
theorem pairwise_sortDesc (l : List Activity) :
    (sortDesc l).Pairwise fun x y => y.suitabilityScore ≤ x.suitabilityScore := by
  induction l with
  | nil => simp [sortDesc]
  | cons a t ih => exact pairwise_insertDesc a (sortDesc t) ih

/-- Sorting preserves the length. -/
theorem length_sortDesc (l : List Activity) : (sortDesc l).length = l.length := by
  induction l with
  | nil => rfl
  | cons a t ih =>
    rw [sortDesc, length_insertDesc, ih, List.length_cons]

/-- Stability of the insertion at one score level: inserting an element
places it after no element of its own score. -/
theorem filter_insertDesc (a : Activity) (l : List Activity) (s : ℤ) :
    (insertDesc a l).filter (fun x => decide (x.suitabilityScore = s)) =
      if a.suitabilityScore = s then
        a :: l.filter (fun x => decide (x.suitabilityScore = s))
      else l.filter (fun x => decide (x.suitabilityScore = s)) := by
  induction l with
  | nil =>
    rw [insertDesc]
    by_cases ha : a.suitabilityScore = s
    · simp [ha]
    · simp [ha]
  | cons b t ih =>
    rw [insertDesc]
    by_cases hb : b.suitabilityScore > a.suitabilityScore
    · rw [if_pos hb, List.filter_cons, ih]
      by_cases ha : a.suitabilityScore = s
      · have hbs : ¬b.suitabilityScore = s := by omega
        simp [ha, hbs, List.filter_cons]
      · simp [ha, List.filter_cons]
    · rw [if_neg hb, List.filter_cons]
      by_cases ha : a.suitabilityScore = s
      · simp [ha, List.filter_cons]
      · simp [ha, List.filter_cons]

/-- Stability of the sort: at every score level the sorted list keeps
the original relative order of the tied elements. -/
theorem filter_sortDesc (l : List Activity) (s : ℤ) :
    (sortDesc l).filter (fun x => decide (x.suitabilityScore = s)) =
      l.filter (fun x => decide (x.suitabilityScore = s)) := by
  induction l with
  | nil => rfl
  | cons a t ih =>
    rw [sortDesc, filter_insertDesc, List.filter_cons, ih]
    by_cases ha : a.suitabilityScore = s
    · simp [ha]
    · simp [ha]

/-- The ranking is the stable descending sort of the scored activities,
sliced by `top`. -/
theorem rank_eq (f : Forecast) (top : ℤ) :
    rankActivitiesForDay f top =
      (sortDesc (scoredActivities f)).take
        (jsSliceEnd (sortDesc (scoredActivities f)).length top) := rfl

/-- Four profiles ship, so four activities are scored. -/
theorem length_scoredActivities (f : Forecast) : (scoredActivities f).length = 4 := by
  rw [scoredActivities, List.length_map]
  rfl

/-- The sorted activity list also has four elements. -/
theorem length_sortDesc_scored (f : Forecast) :
    (sortDesc (scoredActivities f)).length = 4 := by
  rw [length_sortDesc, length_scoredActivities]

/-- Closed form of the ranking's length for any `top`. -/
theorem length_rank (f : Forecast) (top : ℤ) :
    (rankActivitiesForDay f top).length = min (jsSliceEnd 4 top) 4 := by
  rw [rank_eq, List.length_take, length_sortDesc_scored]

/-- With `top = 4` the slice returns the whole sorted list. -/
theorem rank_four (f : Forecast) :
    rankActivitiesForDay f 4 = sortDesc (scoredActivities f) := by
  rw [rank_eq, length_sortDesc_scored]
  rw [show jsSliceEnd 4 4 = 4 from rfl]
  rw [← length_sortDesc_scored f, List.take_length]

/-- Every slice of the ranking is a prefix of the full sorted
ranking. -/
theorem rank_prefix_rank_four (f : Forecast) (top : ℤ) :
    rankActivitiesForDay f top <+: rankActivitiesForDay f 4 := by
  rw [rank_eq, rank_four]
  exact ⟨(sortDesc (scoredActivities f)).drop
    (jsSliceEnd (sortDesc (scoredActivities f)).length top), List.take_append_drop _ _⟩

/-- C2 (amended).  For every forecast and every integer `top` the
ranking is sorted non-increasing by score; for non-negative `top` its
length is `min(top, 4)`.  (For negative `top` the length follows
JavaScript slice semantics instead — claim C10.) -/
theorem c2_rank_sorted_and_length (f : Forecast) (top : ℤ) :
    ((rankActivitiesForDay f top).Pairwise fun x y =>
        y.suitabilityScore ≤ x.suitabilityScore) ∧
      (0 ≤ top → ((rankActivitiesForDay f top).length : ℤ) = min top 4) := by
  constructor
  · rw [rank_eq]
    exact List.Pairwise.sublist (List.take_sublist _ _) (pairwise_sortDesc _)
  · intro htop
    rw [length_rank, jsSliceEnd, if_neg (by omega)]
    omega

/-- Witness for C2 (amended) at the scenario forecast with `top = 2`. -/
theorem c2_rank_sorted_and_length_witness :
    ((rankActivitiesForDay clearMildDay 2).Pairwise fun x y =>
        y.suitabilityScore ≤ x.suitabilityScore) ∧
      ((rankActivitiesForDay clearMildDay 2).length : ℤ) = min 2 4 :=
  ⟨(c2_rank_sorted_and_length clearMildDay 2).1,
    (c2_rank_sorted_and_length clearMildDay 2).2 (by decide)⟩

/-- Counterexample to C2 as stated: at `top = -1` the ranking has three
elements, not `min(-1, 4) = -1` — the length formula fails for negative
`top`. -/
theorem c2_counterexample :
    ¬ ((rankActivitiesForDay clearMildDay (-1)).length : ℤ) = min (-1 : ℤ) 4 := by
  rw [length_rank]
  decide

/-- C10 (amended).  For `-4 ≤ top ≤ -1` the ranking never raises: it is
the `4 + top`-element prefix of the full sorted ranking (JavaScript
`slice(0, top)` counts a negative bound from the end), and it is
non-empty except at `top = -4`, where `slice(0, -4)` is empty. -/
theorem c10_negative_top (f : Forecast) (top : ℤ) (h1 : -4 ≤ top) (h2 : top ≤ -1) :
    (rankActivitiesForDay f top).length = (4 + top).toNat ∧
      rankActivitiesForDay f top <+: rankActivitiesForDay f 4 ∧
      (-3 ≤ top → rankActivitiesForDay f top ≠ []) := by
  have hlen : (rankActivitiesForDay f top).length = (4 + top).toNat := by
    rw [length_rank, jsSliceEnd, if_pos (by omega)]
    omega
  refine ⟨hlen, rank_prefix_rank_four f top, ?_⟩
  intro h3
  apply List.ne_nil_of_length_pos
  rw [hlen]
  omega

/-- Witness for C10 (amended) at the scenario forecast with
`top = -2`: two activities survive. -/
theorem c10_negative_top_witness :
    (rankActivitiesForDay clearMildDay (-2)).length = ((4 : ℤ) + (-2)).toNat ∧
      rankActivitiesForDay clearMildDay (-2) <+: rankActivitiesForDay clearMildDay 4 ∧
      rankActivitiesForDay clearMildDay (-2) ≠ [] := by
  obtain ⟨ha, hb, hc⟩ := c10_negative_top clearMildDay (-2) (by decide) (by decide)
  exact ⟨ha, hb, hc (by decide)⟩

/-- Counterexample to C10 as stated: at `top = -4` (inside the claim's
own range) the ranking is the empty sequence. -/
theorem c10_counterexample : rankActivitiesForDay clearMildDay (-4) = [] := by
  apply List.eq_nil_of_length_eq_zero
  rw [length_rank]
  decide

/-- C6.  The descending sort is stable: at every score level the
ranking lists tied activities in the profile table's original relative
order (the filter of the full ranking at any fixed score equals the
filter of the unsorted profile-ordered scoring), and every sliced
ranking is a prefix of the full one, so the same tie order is observed
for any `top`. -/
theorem c6_stable_tie_order (f : Forecast) (s : ℤ) :
    ((rankActivitiesForDay f 4).filter (fun x => decide (x.suitabilityScore = s)) =
        (scoredActivities f).filter (fun x => decide (x.suitabilityScore = s))) ∧
      ∀ top : ℤ, rankActivitiesForDay f top <+: rankActivitiesForDay f 4 := by
  rw [rank_four]
  exact ⟨filter_sortDesc _ s, fun top => by
    rw [← rank_four]
    exact rank_prefix_rank_four f top⟩

/-- A reasoning field built by the source's
`reasons.join(', ') || 'standard conditions'` is never empty. -/
theorem reasoning_fallback_ne_nil (rs : List JStr) :
    (if joinSep (String.toList ", ") rs = [] then String.toList "standard conditions"
      else joinSep (String.toList ", ") rs) ≠ [] := by
  by_cases h : joinSep (String.toList ", ") rs = []
  · rw [if_pos h]
    decide
  · rw [if_neg h]
    exact h

/-- C3.  Every scored activity has an integer suitability score clamped
into `[0, 100]` and a non-empty reasoning string, for every profile and
every weather input. -/
theorem c3_score_invariants (config : ActivityConfig) (avgTemp : ℚ)
    (hasRain isWindy : Bool) (precipitation windSpeed : ℚ) :
    0 ≤ (scoreActivity config avgTemp hasRain isWindy precipitation windSpeed).suitabilityScore ∧
      (scoreActivity config avgTemp hasRain isWindy precipitation windSpeed).suitabilityScore ≤ 100 ∧
      (scoreActivity config avgTemp hasRain isWindy precipitation windSpeed).reasoning ≠ [] :=
  ⟨le_max_left 0 _, max_le (by norm_num) (min_le_left 100 _),
    reasoning_fallback_ne_nil _⟩

/-- Rounding a rational that is a whole number is that number. -/
theorem jsRound_num (q : ℚ) (n : ℤ) (h : q = (n : ℚ)) : jsRound q = n := by
  rw [jsRound, h, Int.floor_eq_iff]
  constructor
  · linarith
  · linarith

/-- Skiing on the mild clear day: too warm, no rain, score 30. -/
theorem scoreActivity_ski_mild :
    scoreActivity ⟨String.toList "skiing", -10, 2, 1/10, 2/10⟩ 20 false false 0 5 =
      ⟨String.toList "skiing", 30, String.toList "too warm, no rain"⟩ := by
  rw [scoreActivity]
  norm_num
  rw [jsRound_num _ 30 (by norm_num)]
  decide

/-- Surfing on the mild clear day: ideal temperature, score 80. -/
theorem scoreActivity_surf_mild :
    scoreActivity ⟨String.toList "surfing", 18, 28, 7/10, 8/10⟩ 20 false false 0 5 =
      ⟨String.toList "surfing", 80, String.toList "ideal temperature"⟩ := by
  rw [scoreActivity]
  norm_num
  rw [jsRound_num _ 80 (by norm_num)]
  decide

/-- Indoor sightseeing on the mild clear day: ideal temperature,
score 80. -/
theorem scoreActivity_indoor_mild :
    scoreActivity ⟨String.toList "indoor_sightseeing", 10, 30, 1, 5/10⟩ 20 false false 0 5 =
      ⟨String.toList "indoor_sightseeing", 80, String.toList "ideal temperature"⟩ := by
  rw [scoreActivity]
  norm_num
  rw [jsRound_num _ 80 (by norm_num)]
  decide

/-- Outdoor sightseeing on the mild clear day: ideal temperature and no
rain, score 90. -/
theorem scoreActivity_outdoor_mild :
    scoreActivity ⟨String.toList "outdoor_sightseeing", 15, 25, 1/10, 3/10⟩ 20 false false 0 5 =
      ⟨String.toList "outdoor_sightseeing", 90, String.toList "ideal temperature, no rain"⟩ := by
  rw [scoreActivity]
  norm_num
  rw [jsRound_num _ 90 (by norm_num)]
  decide

/-- The four scored activities of the scenario day, in profile order. -/
theorem scoredActivities_mild :
    scoredActivities clearMildDay =
      [⟨String.toList "skiing", 30, String.toList "too warm, no rain"⟩,
       ⟨String.toList "surfing", 80, String.toList "ideal temperature"⟩,
       ⟨String.toList "indoor_sightseeing", 80, String.toList "ideal temperature"⟩,
       ⟨String.toList "outdoor_sightseeing", 90, String.toList "ideal temperature, no rain"⟩] := by
  rw [scoredActivities, ACTIVITY_CONFIGS]
  simp only [List.map_cons, List.map_nil, clearMildDay]
  rw [show ((22 : ℚ) + 18) / 2 = 20 from by norm_num]
  rw [show decide ((0 : ℚ) > 1) = false from rfl]
  rw [show decide ((5 : ℚ) > 20) = false from rfl]
  rw [scoreActivity_ski_mild, scoreActivity_surf_mild, scoreActivity_indoor_mild,
    scoreActivity_outdoor_mild]

/-- C7.  On `{maxTemp: 22, minTemp: 18, precipitation: 0, windSpeed: 5}`
with `top = 1` the ranking is exactly one activity,
`outdoor_sightseeing`, whose score 90 exceeds 80. -/
theorem c7_mild_day_scenario :
    rankActivitiesForDay clearMildDay 1 =
      [⟨String.toList "outdoor_sightseeing", 90, String.toList "ideal temperature, no rain"⟩] ∧
      (80 : ℤ) < 90 := by
  constructor
  · rw [rank_eq, scoredActivities_mild]
    decide
  · decide
